import Mathlib

/-!
Shallow embedding of the stock-market dashboard's computational core:
the CSV parser (`DataUpload.tsx`), the technical-indicator computation
(`TechnicalIndicators`), the performance metrics (`PerformanceMetrics.tsx`)
and the recommendation rule (`Recommendations.tsx`).

Modelling conventions:
* JS strings in the parser are modelled as `List Char`; `String.prototype.split`,
  `trim` and `toLowerCase` are modelled by the structural list functions below.
* JS numbers in the parser are modelled as exact rationals `ℚ`; the JS `NaN`
  produced by a failed `parseFloat` is modelled as `none : Option ℚ`.
* JS numbers in the analytics modules are modelled as real numbers `ℝ`;
  `Math.sqrt` is `Real.sqrt`.  Division by zero yields `0` (Lean's convention)
  where JS would produce `NaN`/`Infinity`.
* `Math.random()`-based values are supplied through an explicit oracle
  parameter (`rand`).
-/

namespace CSV

/-- Models `String.prototype.split(sep)` for a one-character separator:
splitting the empty text yields `[[]]`, and separators delimit (possibly
empty) fields. -/
def splitOnSep (sep : Char) : List Char → List (List Char)
  | [] => [[]]
  | c :: cs =>
    if c = sep then [] :: splitOnSep sep cs
    else
      match splitOnSep sep cs with
      | [] => [[c]]
      | w :: ws => (c :: w) :: ws

/-- Whitespace recognised by the model of `String.prototype.trim`. -/
def isSpaceChar (c : Char) : Bool :=
  c = ' ' || c = '\t' || c = '\r' || c = '\n'

/-- Models `String.prototype.trim`. -/
def trimChars (l : List Char) : List Char :=
  ((l.dropWhile isSpaceChar).reverse.dropWhile isSpaceChar).reverse

/-- Models `String.prototype.toLowerCase` (ASCII inputs). -/
def toLowerChars (l : List Char) : List Char :=
  l.map Char.toLower

/-- Models `String.prototype.includes(pat)`: substring containment. -/
def includesSub (s pat : List Char) : Bool :=
  match s with
  | [] => pat.isEmpty
  | c :: cs => pat.isPrefixOf (c :: cs) || includesSub cs pat

/-- Numeric value of a decimal digit character. -/
def digitVal (c : Char) : ℕ := c.toNat - 48

/-- Value of a list of decimal digit characters, most significant first. -/
def digitsToNat (cs : List Char) : ℕ :=
  cs.foldl (fun a c => 10 * a + digitVal c) 0

/-- Unsigned part of the `parseFloat` model: leading decimal digits, an
optional point and further digits; any trailing junk is ignored, and if no
digit is found at all the result is `none` (JS `NaN`). -/
def parseUnsigned (cs : List Char) : Option ℚ :=
  let intPart := cs.takeWhile Char.isDigit
  let rest := cs.drop intPart.length
  let fracPart :=
    match rest with
    | '.' :: r => r.takeWhile Char.isDigit
    | _ => []
  if intPart.isEmpty && fracPart.isEmpty then none
  else
    some ((digitsToNat intPart : ℚ) + (digitsToNat fracPart : ℚ) / (10 : ℚ) ^ fracPart.length)

/-- Models JS `parseFloat` on the decimal inputs this dashboard handles:
leading whitespace is skipped, an optional sign is read, then the longest
numeric prefix is parsed; `none` models `NaN`.  (Exponent notation and the
`Infinity` literal are outside the CSV number format modelled here.) -/
def parseFloat (s : List Char) : Option ℚ :=
  match s.dropWhile isSpaceChar with
  | '-' :: rest => (parseUnsigned rest).map (fun q => -q)
  | '+' :: rest => parseUnsigned rest
  | cs => parseUnsigned cs

/-- One parsed OHLCV record (`StockData` in `StockTypes.ts`) as built by
`parseCSVData`; a field holds `none` where the JS object would hold `NaN`.
The `open` column's field is named `open_` (`open` is a Lean keyword). -/
structure RawStock where
  date : List Char
  open_ : Option ℚ
  high : Option ℚ
  low : Option ℚ
  close : Option ℚ
  volume : Option ℚ
deriving DecidableEq

/-- Models the JS expression `x || 0` on a number that may be `NaN`:
`NaN` and `0` are falsy, every other number is truthy. -/
def jsOrZero (v : Option ℚ) : ℚ := v.getD 0

/-- Header predicate for the date column: `h.includes('date') || h.includes('time')`. -/
def isDateHeader (h : List Char) : Bool :=
  includesSub h "date".toList || includesSub h "time".toList

/-- Header predicate for the open column: `h.includes('open')`. -/
def isOpenHeader (h : List Char) : Bool := includesSub h "open".toList

/-- Header predicate for the high column: `h.includes('high')`. -/
def isHighHeader (h : List Char) : Bool := includesSub h "high".toList

/-- Header predicate for the low column: `h.includes('low')`. -/
def isLowHeader (h : List Char) : Bool := includesSub h "low".toList

/-- Header predicate for the close column: `h.includes('close') || h.includes('price')`. -/
def isCloseHeader (h : List Char) : Bool :=
  includesSub h "close".toList || includesSub h "price".toList

/-- Header predicate for the volume column: `h.includes('volume')`. -/
def isVolumeHeader (h : List Char) : Bool := includesSub h "volume".toList

/-- The split-and-trimmed cells of one CSV line:
`lines[i].split(',').map(v => v.trim())`. -/
def rowValues (line : List Char) : List (List Char) :=
  (splitOnSep ',' line).map trimChars

/-- The body of `parseCSVData`'s loop for one data line: the column indices
are located by substring match on the headers (JS `findIndex`, `-1` modelled
as `none`), and a record is pushed only when both a date and a close column
exist.  `randVal` is the oracle value for `Math.floor(Math.random() * 1000000)`.
Absent optional columns fall back to the close cell (OHLC) or to `randVal`
(volume); present ones go through `parseFloat(...) || 0`. -/
def parseRow (headers : List (List Char)) (randVal : ℚ) (line : List Char) :
    Option RawStock :=
  let values := rowValues line
  let dateIdx := headers.findIdx? isDateHeader
  let openIdx := headers.findIdx? isOpenHeader
  let highIdx := headers.findIdx? isHighHeader
  let lowIdx := headers.findIdx? isLowHeader
  let closeIdx := headers.findIdx? isCloseHeader
  let volumeIdx := headers.findIdx? isVolumeHeader
  match dateIdx, closeIdx with
  | some di, some ci =>
    some
      { date := values.getD di []
        open_ :=
          match openIdx with
          | some oi => some (jsOrZero (parseFloat (values.getD oi [])))
          | none => parseFloat (values.getD ci [])
        high :=
          match highIdx with
          | some hi => some (jsOrZero (parseFloat (values.getD hi [])))
          | none => parseFloat (values.getD ci [])
        low :=
          match lowIdx with
          | some li => some (jsOrZero (parseFloat (values.getD li [])))
          | none => parseFloat (values.getD ci [])
        close := parseFloat (values.getD ci [])
        volume :=
          match volumeIdx with
          | some vi => some (jsOrZero (parseFloat (values.getD vi [])))
          | none => some randVal }
  | _, _ => none

/-- The `for (let i = 1; ...)` loop of `parseCSVData`: the counter `i` names
the line index and indexes the random oracle. -/
def parseRows (headers : List (List Char)) (rand : ℕ → ℚ) :
    ℕ → List (List Char) → List RawStock
  | _, [] => []
  | i, line :: rest =>
    match parseRow headers (rand i) line with
    | some r => r :: parseRows headers rand (i + 1) rest
    | none => parseRows headers rand (i + 1) rest

/-- `parseCSVData` from `DataUpload.tsx`: trim the text, split into lines,
lower-case and split the header line, parse every further line, and keep
only the records whose close parsed to a number
(`data.filter(d => !isNaN(d.close))`). -/
def parseCSVData (rand : ℕ → ℚ) (csvText : List Char) : List RawStock :=
  let lines := splitOnSep '\n' (trimChars csvText)
  let headers := (splitOnSep ',' (toLowerChars (lines.headD []))).map trimChars
  let data := parseRows headers rand 1 (lines.drop 1)
  data.filter (fun d => d.close.isSome)

/-- The spec's worked example input: a `Date,...,Close,...` header followed by
the two quoted rows. -/
def sampleCSV : List Char :=
  ("Date,Open,High,Low,Close,Volume\n" ++
   "2024-01-01,150,155,149,152.5,1000000\n" ++
   "2024-01-02,152.5,156,151,154.25,1200000").toList

/-- A fixed random oracle (any value works: the sample input has a volume
column, so the oracle is never consulted). -/
def randZero : ℕ → ℚ := fun _ => 0

/-- Expected first record of the worked example. -/
def sampleRec1 : RawStock :=
  { date := "2024-01-01".toList, open_ := some 150, high := some 155,
    low := some 149, close := some (305 / 2), volume := some 1000000 }

/-- Expected second record of the worked example. -/
def sampleRec2 : RawStock :=
  { date := "2024-01-02".toList, open_ := some (305 / 2), high := some 156,
    low := some 151, close := some (617 / 4), volume := some 1200000 }

/-- A CSV input whose open column is present but unparsable. -/
def unparsableOpenCSV : List Char := "date,open,close\nd,abc,100".toList

/-- Parsed header row of `unparsableOpenCSV` (no high/low/volume columns). -/
def smallHeaders : List (List Char) := ["date".toList, "open".toList, "close".toList]

/-- A data line with an unparsable open cell and an unparsable close cell. -/
def smallLine : List Char := "d,abc,xyz".toList

/-- The record `parseRow` builds from `smallHeaders` and `smallLine` with
random oracle value 7. -/
def smallRec : RawStock :=
  { date := "d".toList, open_ := some 0, high := none, low := none,
    close := none, volume := some 7 }

end CSV

namespace App

noncomputable section

/-- One loaded OHLCV record (`StockData` in `StockTypes.ts`) as consumed by
the analytics components; JS numbers are modelled as reals.  The `open`
column's field is named `open_` (`open` is a Lean keyword). -/
structure StockData where
  date : String
  open_ : ℝ
  high : ℝ
  low : ℝ
  close : ℝ
  volume : ℝ
deriving Inhabited

/-- `ModelPrediction` from `StockTypes.ts`. -/
structure ModelPrediction where
  date : String
  actual : ℝ
  predicted : ℝ
  confidence : ℝ
deriving Inhabited

/-- Models `Array.prototype.slice(a, b)` for `0 ≤ a ≤ b`. -/
def jsSlice (l : List α) (a b : ℕ) : List α :=
  (l.drop a).take (b - a)

/-- Models `Array.prototype.slice(-k)`: the trailing `k` elements (or the
whole array when it is shorter than `k`). -/
def jsSliceLast (l : List α) (k : ℕ) : List α :=
  l.drop (l.length - k)

/-! ### Technical indicators (the `indicators` memo of `TechnicalIndicators`) -/

/-- `sma20`: mean of the 20 trailing closes once `index >= 19`, otherwise the
degenerate placeholder `data.close`. -/
def sma20 (stockData : List StockData) (index : ℕ) (data : StockData) : ℝ :=
  if 19 ≤ index then
    ((jsSlice stockData (index - 19) (index + 1)).map StockData.close).sum / 20
  else data.close

/-- `sma50`: mean of the 50 trailing closes once `index >= 49`. -/
def sma50 (stockData : List StockData) (index : ℕ) (data : StockData) : ℝ :=
  if 49 ≤ index then
    ((jsSlice stockData (index - 49) (index + 1)).map StockData.close).sum / 50
  else data.close

/-- `ema12` (a simple 12-sample mean despite its name) once `index >= 11`. -/
def ema12 (stockData : List StockData) (index : ℕ) (data : StockData) : ℝ :=
  if 11 ≤ index then
    ((jsSlice stockData (index - 11) (index + 1)).map StockData.close).sum / 12
  else data.close

/-- `ema26` (a simple 26-sample mean despite its name) once `index >= 25`. -/
def ema26 (stockData : List StockData) (index : ℕ) (data : StockData) : ℝ :=
  if 25 ≤ index then
    ((jsSlice stockData (index - 25) (index + 1)).map StockData.close).sum / 26
  else data.close

/-- `macd = ema12 - ema26`. -/
def macd (stockData : List StockData) (index : ℕ) (data : StockData) : ℝ :=
  ema12 stockData index data - ema26 stockData index data

/-- The `changes` array of the RSI computation: the trailing 14-sample close
window, mapped to close-to-close differences with an artificial `0` in the
first slot (`i === 0 ? 0 : d.close - arr[i - 1].close`, written over the
projected close list). -/
def rsiChanges (stockData : List StockData) (index : ℕ) : List ℝ :=
  let closes := (jsSlice stockData (index - 13) (index + 1)).map StockData.close
  closes.mapIdx (fun k c => if k = 0 then 0 else c - closes.getD (k - 1) 0)

/-- The RSI computation: `50` before the window fills (`index < 14`); once it
is full, `100` when the average loss is zero and the usual
`100 - 100 / (1 + gains / losses)` otherwise. -/
noncomputable def rsi (stockData : List StockData) (index : ℕ) : ℝ :=
  if 14 ≤ index then
    let changes := rsiChanges stockData index
    let gains := (changes.filter (fun c => decide (c > 0))).sum / 14
    let losses := |(changes.filter (fun c => decide (c < 0))).sum| / 14
    if losses = 0 then 100 else 100 - 100 / (1 + gains / losses)
  else 50

/-- `bb_middle = sma20`. -/
def bb_middle (stockData : List StockData) (index : ℕ) (data : StockData) : ℝ :=
  sma20 stockData index data

/-- The Bollinger `variance`: trailing 20-sample variance about `bb_middle`
once `index >= 19`, otherwise `0`. -/
def bbVariance (stockData : List StockData) (index : ℕ) (data : StockData) : ℝ :=
  if 19 ≤ index then
    ((jsSlice stockData (index - 19) (index + 1)).map
        (fun d => (d.close - bb_middle stockData index data) ^ 2)).sum / 20
  else 0

/-- `stdDev = Math.sqrt(variance)`. -/
noncomputable def stdDev (stockData : List StockData) (index : ℕ) (data : StockData) : ℝ :=
  Real.sqrt (bbVariance stockData index data)

/-- `bb_upper = bb_middle + stdDev * 2`. -/
noncomputable def bb_upper (stockData : List StockData) (index : ℕ) (data : StockData) : ℝ :=
  bb_middle stockData index data + stdDev stockData index data * 2

/-- `bb_lower = bb_middle - stdDev * 2`. -/
noncomputable def bb_lower (stockData : List StockData) (index : ℕ) (data : StockData) : ℝ :=
  bb_middle stockData index data - stdDev stockData index data * 2

/-- One element of the `indicators` array built by `TechnicalIndicators`. -/
structure TechnicalIndicator where
  date : String
  close : ℝ
  sma20 : ℝ
  sma50 : ℝ
  rsi : ℝ
  macd : ℝ
  bb_upper : ℝ
  bb_middle : ℝ
  bb_lower : ℝ

/-- The `indicators` memo: empty for fewer than 50 data points, otherwise one
indicator record per data point. -/
noncomputable def technicalIndicators (stockData : List StockData) :
    List TechnicalIndicator :=
  if stockData.length < 50 then []
  else
    stockData.mapIdx (fun index data =>
      { date := data.date
        close := data.close
        sma20 := sma20 stockData index data
        sma50 := sma50 stockData index data
        rsi := rsi stockData index
        macd := macd stockData index data
        bb_upper := bb_upper stockData index data
        bb_middle := bb_middle stockData index data
        bb_lower := bb_lower stockData index data })

/-! ### Performance metrics (`PerformanceMetrics.tsx`) -/

/-- `errors = predictions.map(p => p.actual - p.predicted)`. -/
def errors (predictions : List ModelPrediction) : List ℝ :=
  predictions.map (fun p => p.actual - p.predicted)

/-- `absoluteErrors = errors.map(e => Math.abs(e))`. -/
def absoluteErrors (predictions : List ModelPrediction) : List ℝ :=
  (errors predictions).map (fun e => |e|)

/-- `squaredErrors = errors.map(e => e * e)`. -/
def squaredErrors (predictions : List ModelPrediction) : List ℝ :=
  (errors predictions).map (fun e => e * e)

/-- `percentageErrors = predictions.map(p => Math.abs((p.actual - p.predicted) / p.actual) * 100)`. -/
def percentageErrors (predictions : List ModelPrediction) : List ℝ :=
  predictions.map (fun p => |(p.actual - p.predicted) / p.actual| * 100)

/-- `mse`: mean of the squared errors. -/
def mse (predictions : List ModelPrediction) : ℝ :=
  (squaredErrors predictions).sum / predictions.length

/-- `rmse = Math.sqrt(mse)`. -/
noncomputable def rmse (predictions : List ModelPrediction) : ℝ :=
  Real.sqrt (mse predictions)

/-- `mae`: mean of the absolute errors. -/
def mae (predictions : List ModelPrediction) : ℝ :=
  (absoluteErrors predictions).sum / predictions.length

/-- `mape`: mean of the percentage errors. -/
def mape (predictions : List ModelPrediction) : ℝ :=
  (percentageErrors predictions).sum / predictions.length

/-- `actualMean`: mean of the actual values. -/
def actualMean (predictions : List ModelPrediction) : ℝ :=
  (predictions.map (fun p => p.actual)).sum / predictions.length

/-- `totalSumSquares`: sum of squared deviations of the actuals about their mean. -/
def totalSumSquares (predictions : List ModelPrediction) : ℝ :=
  (predictions.map (fun p => (p.actual - actualMean predictions) ^ 2)).sum

/-- `residualSumSquares`: sum of the squared errors. -/
def residualSumSquares (predictions : List ModelPrediction) : ℝ :=
  (squaredErrors predictions).sum

/-- `r2Score = 1 - residualSumSquares / totalSumSquares`. -/
def r2Score (predictions : List ModelPrediction) : ℝ :=
  1 - residualSumSquares predictions / totalSumSquares predictions

/-- `accuratePredictons`: how many predictions have relative error at most 5%. -/
noncomputable def accuratePredictons (predictions : List ModelPrediction) : ℕ :=
  (predictions.filter (fun p => decide (|p.actual - p.predicted| / p.actual ≤ 0.05))).length

/-- `accuracy`: the 5%-band hit rate, as a percentage. -/
noncomputable def accuracy (predictions : List ModelPrediction) : ℝ :=
  (accuratePredictons predictions : ℝ) / predictions.length * 100

/-- `directionallyCorrect`: the JS loop
`predictions.slice(1).filter((p, i) => (p.actual > predictions[i].actual) === (p.predicted > predictions[i].predicted)).length`,
written as a count over each element of `drop 1` zipped with its predecessor;
the boolean `===` is the decidable iff. -/
noncomputable def directionallyCorrect (predictions : List ModelPrediction) : ℕ :=
  ((predictions.drop 1).zip predictions).countP
    (fun q => decide (q.1.actual > q.2.actual ↔ q.1.predicted > q.2.predicted))

/-- `directionalAccuracy = directionallyCorrect / (predictions.length - 1) * 100`
(the length arithmetic is JS number arithmetic, so the subtraction is real). -/
noncomputable def directionalAccuracy (predictions : List ModelPrediction) : ℝ :=
  (directionallyCorrect predictions : ℝ) / ((predictions.length : ℝ) - 1) * 100

/-- Modelled from the spec (not from the code), for comparison with
`directionalAccuracy`: the three-valued sign of a change. -/
noncomputable def specSign (x : ℝ) : ℤ :=
  if 0 < x then 1 else if x < 0 then -1 else 0

/-- Modelled from the spec (not from the code): how many consecutive pairs
have matching three-valued signs of actual and predicted change. -/
noncomputable def specSignMatches (predictions : List ModelPrediction) : ℕ :=
  ((predictions.drop 1).zip predictions).countP
    (fun q => decide (specSign (q.1.actual - q.2.actual) =
      specSign (q.1.predicted - q.2.predicted)))

/-- Modelled from the spec (not from the code): directional accuracy as the
fraction of consecutive pairs with matching three-valued change signs. -/
noncomputable def specDirectionalAccuracy (predictions : List ModelPrediction) : ℝ :=
  (specSignMatches predictions : ℝ) / ((predictions.length : ℝ) - 1) * 100

/-! ### Recommendation rule (`Recommendations.tsx`).
The `reason` display string (built with `toFixed`) is not modelled; every
numeric field of the result is. -/

/-- The three possible recommendation actions. -/
inductive Action where
  | BUY
  | SELL
  | HOLD
deriving DecidableEq

/-- `currentPrice = stockData[stockData.length - 1].close`. -/
def currentPrice (stockData : List StockData) : ℝ :=
  (stockData.getD (stockData.length - 1) default).close

/-- `latestPrediction = predictions[predictions.length - 1]`. -/
def latestPrediction (predictions : List ModelPrediction) : ModelPrediction :=
  predictions.getD (predictions.length - 1) default

/-- `priceChange = latestPrediction.predicted - currentPrice`. -/
def priceChange (stockData : List StockData) (predictions : List ModelPrediction) : ℝ :=
  (latestPrediction predictions).predicted - currentPrice stockData

/-- `priceChangePercent = (priceChange / currentPrice) * 100`. -/
def priceChangePercent (stockData : List StockData) (predictions : List ModelPrediction) : ℝ :=
  priceChange stockData predictions / currentPrice stockData * 100

/-- `recentPredictions = predictions.slice(-3)`. -/
def recentPredictions (predictions : List ModelPrediction) : List ModelPrediction :=
  jsSliceLast predictions 3

/-- The `trendUp` counting loop: how many consecutive pairs of
`recentPredictions` are strictly increasing in `predicted`. -/
noncomputable def trendUp (predictions : List ModelPrediction) : ℕ :=
  (((recentPredictions predictions).drop 1).zip (recentPredictions predictions)).countP
    (fun q => decide (q.1.predicted > q.2.predicted))

/-- `trendStrength = recentPredictions.length > 1 ? trendUp / (recentPredictions.length - 1) : 0.5`. -/
noncomputable def trendStrength (predictions : List ModelPrediction) : ℝ :=
  if 1 < (recentPredictions predictions).length then
    (trendUp predictions : ℝ) / (((recentPredictions predictions).length : ℝ) - 1)
  else 0.5

/-- `recentPrices = stockData.slice(-20).map(d => d.close)`. -/
def recentPrices (stockData : List StockData) : List ℝ :=
  (jsSliceLast stockData 20).map StockData.close

/-- `avgPrice`: mean of the recent prices. -/
def avgPrice (stockData : List StockData) : ℝ :=
  (recentPrices stockData).sum / (recentPrices stockData).length

/-- The recommendation's `variance` over the recent prices. -/
def recVariance (stockData : List StockData) : ℝ :=
  ((recentPrices stockData).map (fun p => (p - avgPrice stockData) ^ 2)).sum /
    (recentPrices stockData).length

/-- `volatility = Math.sqrt(variance) / avgPrice`. -/
noncomputable def volatility (stockData : List StockData) : ℝ :=
  Real.sqrt (recVariance stockData) / avgPrice stockData

/-- `recentActualPrices = stockData.slice(-5).map(d => d.close)`. -/
def recentActualPrices (stockData : List StockData) : List ℝ :=
  (jsSliceLast stockData 5).map StockData.close

/-- `priceMovingUp = recentActualPrices[recentActualPrices.length - 1] > recentActualPrices[0]`. -/
def priceMovingUp (stockData : List StockData) : Prop :=
  (recentActualPrices stockData).getD ((recentActualPrices stockData).length - 1) 0 >
    (recentActualPrices stockData).getD 0 0

instance (stockData : List StockData) : Decidable (priceMovingUp stockData) := by
  unfold priceMovingUp; exact inferInstance

/-- `avgConfidence = predictions.slice(-3).reduce(...) / Math.min(3, predictions.length)`. -/
def avgConfidence (predictions : List ModelPrediction) : ℝ :=
  ((jsSliceLast predictions 3).map (fun p => p.confidence)).sum /
    ((min 3 predictions.length : ℕ) : ℝ)

/-- The recommendation decision chain: the `action` and `confidence` produced
by the if/else cascade of `Recommendations.tsx`. -/
noncomputable def actionConfidence (stockData : List StockData)
    (predictions : List ModelPrediction) : Action × ℝ :=
  let pcp := priceChangePercent stockData predictions
  if pcp > 1.5 ∧ trendStrength predictions ≥ 0.5 ∧
      (latestPrediction predictions).confidence > 0.7 then
    (Action.BUY, min 0.95 (avgConfidence predictions * 0.9 + 0.1))
  else if pcp < -1.5 ∧ trendStrength predictions ≤ 0.5 ∧
      (latestPrediction predictions).confidence > 0.7 then
    (Action.SELL, min 0.9 (avgConfidence predictions * 0.85 + 0.1))
  else if pcp > 0.8 ∧ priceMovingUp stockData ∧ avgConfidence predictions > 0.75 then
    (Action.BUY, avgConfidence predictions * 0.8)
  else if pcp < -0.8 ∧ ¬ priceMovingUp stockData ∧ avgConfidence predictions > 0.75 then
    (Action.SELL, avgConfidence predictions * 0.8)
  else if pcp > 0.3 ∧ trendStrength predictions > 0.6 then
    (Action.BUY, max 0.5 (avgConfidence predictions * 0.7))
  else if pcp < -0.3 ∧ trendStrength predictions < 0.4 then
    (Action.SELL, max 0.5 (avgConfidence predictions * 0.7))
  else (Action.HOLD, avgConfidence predictions * 0.6)

/-- The chosen action. -/
noncomputable def action (stockData : List StockData)
    (predictions : List ModelPrediction) : Action :=
  (actionConfidence stockData predictions).1

/-- `targetMultiplier = Math.max(1.03, 1 + Math.abs(priceChangePercent) * 0.015)`. -/
def targetMultiplier (stockData : List StockData) (predictions : List ModelPrediction) : ℝ :=
  max 1.03 (1 + |priceChangePercent stockData predictions| * 0.015)

/-- `stopMultiplier = Math.max(0.97, 1 - Math.abs(priceChangePercent) * 0.01)`. -/
def stopMultiplier (stockData : List StockData) (predictions : List ModelPrediction) : ℝ :=
  max 0.97 (1 - |priceChangePercent stockData predictions| * 0.01)

/-- `targetPrice`: above the current price for BUY, mirrored below for SELL,
unchanged for HOLD. -/
noncomputable def targetPrice (stockData : List StockData)
    (predictions : List ModelPrediction) : ℝ :=
  if action stockData predictions = Action.BUY then
    currentPrice stockData * targetMultiplier stockData predictions
  else if action stockData predictions = Action.SELL then
    currentPrice stockData * (2 - targetMultiplier stockData predictions)
  else currentPrice stockData

/-- `stopLoss`: below the current price for BUY, mirrored above for SELL,
unchanged for HOLD. -/
noncomputable def stopLoss (stockData : List StockData)
    (predictions : List ModelPrediction) : ℝ :=
  if action stockData predictions = Action.BUY then
    currentPrice stockData * stopMultiplier stockData predictions
  else if action stockData predictions = Action.SELL then
    currentPrice stockData * (2 - stopMultiplier stockData predictions)
  else currentPrice stockData

/-- The recommendation record (the `reason` display string is not modelled). -/
structure Recommendation where
  action : Action
  confidence : ℝ
  targetPrice : ℝ
  stopLoss : ℝ
  currentPrice : ℝ
  predictedPrice : ℝ
  priceChange : ℝ
  priceChangePercent : ℝ
  volatility : ℝ
  trendStrength : ℝ

/-- The `recommendation` memo: `null` on empty input, otherwise the assembled
record. -/
noncomputable def recommendation (stockData : List StockData)
    (predictions : List ModelPrediction) : Option Recommendation :=
  if stockData.length = 0 ∨ predictions.length = 0 then none
  else
    some
      { action := action stockData predictions
        confidence := (actionConfidence stockData predictions).2
        targetPrice := targetPrice stockData predictions
        stopLoss := stopLoss stockData predictions
        currentPrice := currentPrice stockData
        predictedPrice := (latestPrediction predictions).predicted
        priceChange := priceChange stockData predictions
        priceChangePercent := priceChangePercent stockData predictions
        volatility := volatility stockData
        trendStrength := trendStrength predictions }

/-! ### Concrete inputs used in the theorems below -/

/-- A constant data point with close `1`. -/
def pt1 : StockData := { date := "", open_ := 1, high := 1, low := 1, close := 1, volume := 1 }

/-- Fifty copies of `pt1`: enough data for the indicator computation. -/
def flatData : List StockData := pt1 :: List.replicate 49 pt1

/-- Two predictions whose actual is flat while the predicted falls. -/
def flatActualPreds : List ModelPrediction :=
  [{ date := "", actual := 1, predicted := 2, confidence := 1 },
   { date := "", actual := 1, predicted := 1, confidence := 1 }]

/-- A one-point price history with a negative close. -/
def sdNeg : List StockData :=
  [{ date := "d", open_ := -100, high := -100, low := -100, close := -100, volume := 0 }]

/-- Rising predictions around the negative price of `sdNeg`. -/
def predsNeg : List ModelPrediction :=
  [{ date := "d", actual := 0, predicted := -104, confidence := 0.8 },
   { date := "d", actual := 0, predicted := -103, confidence := 0.8 }]

/-- A one-point price history with a positive close. -/
def sdPos : List StockData :=
  [{ date := "d", open_ := 100, high := 100, low := 100, close := 100, volume := 0 }]

/-- Rising predictions above the price of `sdPos`. -/
def predsPos : List ModelPrediction :=
  [{ date := "d", actual := 100, predicted := 103, confidence := 0.8 },
   { date := "d", actual := 100, predicted := 104, confidence := 0.8 }]

/-- The recommendation record produced on `sdPos`/`predsPos`. -/
def recPos : Recommendation :=
  { action := action sdPos predsPos
    confidence := (actionConfidence sdPos predsPos).2
    targetPrice := targetPrice sdPos predsPos
    stopLoss := stopLoss sdPos predsPos
    currentPrice := currentPrice sdPos
    predictedPrice := (latestPrediction predsPos).predicted
    priceChange := priceChange sdPos predsPos
    priceChangePercent := priceChangePercent sdPos predsPos
    volatility := volatility sdPos
    trendStrength := trendStrength predsPos }

end

end App

/-! ## Helper lemmas -/

theorem list_sum_nonneg {l : List ℝ} (h : ∀ x ∈ l, 0 ≤ x) : 0 ≤ l.sum := by
  induction l with
  | nil => simp
  | cons a t ih =>
    simp only [List.sum_cons]
    have ha := h a (by simp)
    have ht := ih (fun x hx => h x (by simp [hx]))
    linarith

theorem list_sum_neg {l : List ℝ} (h : ∀ x ∈ l, x < 0) (hne : l ≠ []) : l.sum < 0 := by
  induction l with
  | nil => exact absurd rfl hne
  | cons a t ih =>
    simp only [List.sum_cons]
    have ha := h a (by simp)
    rcases eq_or_ne t [] with h0 | h0
    · simp [h0]; linarith
    · have ht := ih (fun x hx => h x (by simp [hx])) h0
      linarith

theorem list_sum_zero {l : List ℝ} (h : ∀ x ∈ l, x = 0) : l.sum = 0 := by
  induction l with
  | nil => simp
  | cons a t ih =>
    simp only [List.sum_cons]
    rw [h a (by simp), ih (fun x hx => h x (by simp [hx]))]
    ring

theorem mse_nonneg (predictions : List App.ModelPrediction) : 0 ≤ App.mse predictions := by
  unfold App.mse
  apply div_nonneg _ (by positivity)
  apply list_sum_nonneg
  intro x hx
  unfold App.squaredErrors at hx
  obtain ⟨e, _, rfl⟩ := List.mem_map.mp hx
  exact mul_self_nonneg e

/-! ## Claims -/

/-- C2: for every non-empty prediction list, the computed RMSE squared equals
the computed MSE (`rmse * rmse = mse`). -/
theorem rmse_mul_self_eq_mse (predictions : List App.ModelPrediction)
    (h : predictions ≠ []) :
    App.rmse predictions * App.rmse predictions = App.mse predictions := by
  unfold App.rmse
  exact Real.mul_self_sqrt (mse_nonneg predictions)

/-- Witness for C2 at a concrete one-element prediction list. -/
theorem rmse_mul_self_eq_mse_witness :
    App.rmse App.predsPos * App.rmse App.predsPos = App.mse App.predsPos :=
  rmse_mul_self_eq_mse App.predsPos (by simp [App.predsPos])

/-- C3: for every non-empty prediction list in which predicted equals actual
at every point, the computed R² score equals 1. -/
theorem r2Score_perfect_eq_one (predictions : List App.ModelPrediction)
    (hne : predictions ≠ [])
    (h : ∀ p ∈ predictions, p.predicted = p.actual) :
    App.r2Score predictions = 1 := by
  have h0 : App.residualSumSquares predictions = 0 := by
    unfold App.residualSumSquares
    apply list_sum_zero
    intro x hx
    unfold App.squaredErrors at hx
    obtain ⟨e, he, rfl⟩ := List.mem_map.mp hx
    unfold App.errors at he
    obtain ⟨p, hp, rfl⟩ := List.mem_map.mp he
    rw [h p hp]
    ring
  unfold App.r2Score
  rw [h0]
  simp

/-- Witness for C3 at a concrete perfect prediction list. -/
theorem r2Score_perfect_eq_one_witness :
    App.r2Score [{ date := "", actual := 2, predicted := 2, confidence := 1 }] = 1 :=
  r2Score_perfect_eq_one _ (by simp) (by intro p hp; simp at hp; subst hp; rfl)

/-- C5: for a prediction list of length exactly 1, the directional-accuracy
computation divides by zero; in this embedding (division by zero yields 0)
the function returns 0. -/
theorem directionalAccuracy_single_eq_zero (predictions : List App.ModelPrediction)
    (h : predictions.length = 1) :
    App.directionalAccuracy predictions = 0 := by
  obtain ⟨p, rfl⟩ := List.length_eq_one.mp h
  unfold App.directionalAccuracy App.directionallyCorrect
  simp

/-- Witness for C5 at a concrete one-element prediction list. -/
theorem directionalAccuracy_single_eq_zero_witness :
    App.directionalAccuracy [{ date := "", actual := 1, predicted := 2, confidence := 1 }] = 0 :=
  directionalAccuracy_single_eq_zero _ (by simp)

/-- C10: the technical-indicator computation returns an empty list whenever
the data has fewer than 50 points, and otherwise returns exactly one record
per input point, in the same order and with the same dates. -/
theorem technicalIndicators_length_guard (stockData : List App.StockData) :
    (stockData.length < 50 → App.technicalIndicators stockData = []) ∧
    (50 ≤ stockData.length →
      (App.technicalIndicators stockData).length = stockData.length ∧
      ∀ i (h1 : i < (App.technicalIndicators stockData).length)
        (h2 : i < stockData.length),
        ((App.technicalIndicators stockData).get ⟨i, h1⟩).date =
          (stockData.get ⟨i, h2⟩).date) := by
  constructor
  · intro h
    simp [App.technicalIndicators, h]
  · intro h
    have hn : ¬ stockData.length < 50 := not_lt.mpr h
    refine ⟨by simp [App.technicalIndicators, hn], ?_⟩
    intro i h1 h2
    simp [App.technicalIndicators, hn, List.get_eq_getElem, List.getElem_mapIdx]

/-- Witness for C10: the guard empties a short input, and a 50-point input
produces 50 records. -/
theorem technicalIndicators_length_guard_witness :
    App.technicalIndicators [] = [] ∧
    (App.technicalIndicators App.flatData).length = 50 := by
  constructor
  · exact (technicalIndicators_length_guard []).1 (by simp)
  · have h := (technicalIndicators_length_guard App.flatData).2
      (by simp [App.flatData])
    rw [h.1]
    simp [App.flatData]

/-- C8 counterexample: on fifty flat closes of `1`, the RSI value at index 0
(window not yet full) is the neutral constant `50`, not the current close `1`;
so not every indicator uses the current close as its placeholder. -/
theorem rsi_placeholder_counterexample :
    App.rsi App.flatData 0 = 50 ∧ (App.flatData.getD 0 App.pt1).close = 1 ∧
    (50 : ℝ) ≠ 1 := by
  refine ⟨?_, ?_, by norm_num⟩
  · simp [App.rsi]
  · simp [App.flatData, App.pt1]

/-- C8 amended: before its trailing window is full, each moving-average and
Bollinger indicator takes the current close as a degenerate placeholder,
while the RSI takes the constant `50`. -/
theorem indicators_before_window_filled (stockData : List App.StockData) (i : ℕ)
    (d : App.StockData) :
    (i < 19 → App.sma20 stockData i d = d.close ∧
      App.bb_middle stockData i d = d.close ∧
      App.bb_upper stockData i d = d.close ∧
      App.bb_lower stockData i d = d.close) ∧
    (i < 49 → App.sma50 stockData i d = d.close) ∧
    (i < 11 → App.ema12 stockData i d = d.close) ∧
    (i < 25 → App.ema26 stockData i d = d.close) ∧
    (i < 14 → App.rsi stockData i = 50) := by
  refine ⟨?_, ?_, ?_, ?_, ?_⟩
  · intro h
    have hs : App.sma20 stockData i d = d.close := by
      unfold App.sma20; rw [if_neg (not_le.mpr h)]
    have hm : App.bb_middle stockData i d = d.close := by
      unfold App.bb_middle; exact hs
    have hv : App.bbVariance stockData i d = 0 := by
      unfold App.bbVariance; rw [if_neg (not_le.mpr h)]
    refine ⟨hs, hm, ?_, ?_⟩
    · unfold App.bb_upper App.stdDev
      rw [hv, Real.sqrt_zero, hm]; ring
    · unfold App.bb_lower App.stdDev
      rw [hv, Real.sqrt_zero, hm]; ring
  · intro h; unfold App.sma50; rw [if_neg (not_le.mpr h)]
  · intro h; unfold App.ema12; rw [if_neg (not_le.mpr h)]
  · intro h; unfold App.ema26; rw [if_neg (not_le.mpr h)]
  · intro h; unfold App.rsi; rw [if_neg (not_le.mpr h)]

/-- Witness for the amended C8 at index 0 of the flat data. -/
theorem indicators_before_window_filled_witness :
    App.sma20 App.flatData 0 App.pt1 = App.pt1.close ∧
    App.rsi App.flatData 0 = 50 :=
  ⟨((indicators_before_window_filled App.flatData 0 App.pt1).1 (by norm_num)).1,
   (indicators_before_window_filled App.flatData 0 App.pt1).2.2.2.2 (by norm_num)⟩

/-- C4 counterexample: on a pair whose actual is flat (change of sign zero)
while the predicted falls (negative sign), the code counts the pair as
directionally correct (`100`) although the three-valued change signs differ
(the sign-matching fraction is `0`). -/
theorem directionalAccuracy_sign_counterexample :
    App.directionalAccuracy App.flatActualPreds = 100 ∧
    App.specDirectionalAccuracy App.flatActualPreds = 0 := by
  constructor
  · unfold App.directionalAccuracy App.directionallyCorrect App.flatActualPreds
    norm_num [List.countP_cons, decide_eq_true_eq]
  · unfold App.specDirectionalAccuracy App.specSignMatches App.specSign
      App.flatActualPreds
    norm_num [List.countP_cons, decide_eq_true_eq]

/-- C4 amended: the computed directional accuracy equals the fraction of
consecutive pairs for which the actual change is positive exactly when the
predicted change is positive (a two-valued up/not-up comparison, not a
three-valued sign comparison), times 100. -/
theorem directionalAccuracy_up_iff (predictions : List App.ModelPrediction)
    (h : 2 ≤ predictions.length) :
    App.directionalAccuracy predictions =
      (((predictions.zip (predictions.drop 1)).countP
          (fun q => decide ((0 : ℝ) < q.2.actual - q.1.actual ↔
            (0 : ℝ) < q.2.predicted - q.1.predicted)) : ℝ) /
        ((predictions.length : ℝ) - 1)) * 100 := by
  unfold App.directionalAccuracy App.directionallyCorrect
  have hcount : ((predictions.drop 1).zip predictions).countP
      (fun q => decide (q.1.actual > q.2.actual ↔ q.1.predicted > q.2.predicted)) =
      (predictions.zip (predictions.drop 1)).countP
      (fun q => decide ((0 : ℝ) < q.2.actual - q.1.actual ↔
        (0 : ℝ) < q.2.predicted - q.1.predicted)) := by
    rw [← List.zip_swap predictions (predictions.drop 1), List.countP_map]
    apply List.countP_congr
    intro x hx
    simp [Function.comp, Prod.swap, decide_eq_true_eq, sub_pos, gt_iff_lt]
  rw [hcount]

/-- Witness for the amended C4 at the concrete two-element prediction list. -/
theorem directionalAccuracy_up_iff_witness :
    App.directionalAccuracy App.flatActualPreds =
      (((App.flatActualPreds.zip (App.flatActualPreds.drop 1)).countP
          (fun q => decide ((0 : ℝ) < q.2.actual - q.1.actual ↔
            (0 : ℝ) < q.2.predicted - q.1.predicted)) : ℝ) /
        ((App.flatActualPreds.length : ℝ) - 1)) * 100 :=
  directionalAccuracy_up_iff App.flatActualPreds (by norm_num [App.flatActualPreds])

theorem neg_filter_sum_eq_zero_iff (L : List ℝ) :
    (L.filter (fun c => decide (c < 0))).sum = 0 ↔ ∀ c ∈ L, 0 ≤ c := by
  constructor
  · intro h0 c hc
    by_contra hneg
    push_neg at hneg
    have hmem : c ∈ L.filter (fun c => decide (c < 0)) :=
      List.mem_filter.mpr ⟨hc, by simp [hneg]⟩
    have hall : ∀ x ∈ L.filter (fun c => decide (c < 0)), x < 0 := by
      intro x hx
      have hx2 := (List.mem_filter.mp hx).2
      simpa using hx2
    have hlt := list_sum_neg hall (List.ne_nil_of_mem hmem)
    rw [h0] at hlt
    exact lt_irrefl 0 hlt
  · intro h
    have hnil : L.filter (fun c => decide (c < 0)) = [] := by
      rw [List.filter_eq_nil_iff]
      intro a ha
      simpa using not_lt.mpr (h a ha)
    rw [hnil]
    rfl

/-- C1: for every price sequence and every valid index `i ≥ 14`, the RSI at
`i` equals 100 exactly when the trailing window has no negative close-to-close
change, and it always lies in the closed interval `[0, 100]`. -/
theorem rsi_hundred_iff_no_losses (stockData : List App.StockData) (i : ℕ)
    (h14 : 14 ≤ i) (hlen : i < stockData.length) :
    (App.rsi stockData i = 100 ↔ ∀ c ∈ App.rsiChanges stockData i, 0 ≤ c) ∧
    0 ≤ App.rsi stockData i ∧ App.rsi stockData i ≤ 100 := by
  have hform : App.rsi stockData i =
      (if |((App.rsiChanges stockData i).filter (fun c => decide (c < 0))).sum| / 14 = 0
       then (100 : ℝ)
       else 100 - 100 / (1 +
         (((App.rsiChanges stockData i).filter (fun c => decide (c > 0))).sum / 14) /
           (|((App.rsiChanges stockData i).filter (fun c => decide (c < 0))).sum| / 14))) := by
    unfold App.rsi
    rw [if_pos h14]
  set L := App.rsiChanges stockData i with hL
  set g : ℝ := (L.filter (fun c => decide (c > 0))).sum / 14 with hg
  set nl : ℝ := |(L.filter (fun c => decide (c < 0))).sum| / 14 with hnl
  have hg0 : 0 ≤ g := by
    rw [hg]
    apply div_nonneg _ (by norm_num)
    apply list_sum_nonneg
    intro x hx
    have hx2 := (List.mem_filter.mp hx).2
    have : x > 0 := by simpa using hx2
    linarith
  have hnl0 : 0 ≤ nl := by
    rw [hnl]
    exact div_nonneg (abs_nonneg _) (by norm_num)
  have hiff : nl = 0 ↔ ∀ c ∈ L, 0 ≤ c := by
    rw [hnl, div_eq_zero_iff]
    constructor
    · intro h
      rcases h with h | h
      · exact (neg_filter_sum_eq_zero_iff L).mp (abs_eq_zero.mp h)
      · norm_num at h
    · intro h
      exact Or.inl (abs_eq_zero.mpr ((neg_filter_sum_eq_zero_iff L).mpr h))
  rcases eq_or_ne nl 0 with h0 | h0
  · rw [hform, if_pos h0]
    exact ⟨⟨fun _ => hiff.mp h0, fun _ => rfl⟩, by norm_num, le_refl 100⟩
  · have hnlpos : 0 < nl := lt_of_le_of_ne hnl0 (Ne.symm h0)
    have hdiv0 : 0 ≤ g / nl := div_nonneg hg0 hnlpos.le
    have hden : (1 : ℝ) ≤ 1 + g / nl := by linarith
    have hq : 0 < 100 / (1 + g / nl) := div_pos (by norm_num) (by linarith)
    have hqle : 100 / (1 + g / nl) ≤ 100 := div_le_self (by norm_num) hden
    rw [hform, if_neg h0]
    refine ⟨⟨fun h100 => ?_, fun hall => ?_⟩, by linarith, by linarith⟩
    · exfalso; linarith
    · exact absurd (hiff.mpr hall) h0

/-- Witness for C1 at index 14 of the flat 50-point data. -/
theorem rsi_hundred_iff_no_losses_witness :
    (App.rsi App.flatData 14 = 100 ↔ ∀ c ∈ App.rsiChanges App.flatData 14, 0 ≤ c) ∧
    0 ≤ App.rsi App.flatData 14 ∧ App.rsi App.flatData 14 ≤ 100 :=
  rsi_hundred_iff_no_losses App.flatData 14 (by norm_num) (by norm_num [App.flatData])

theorem csv_sample_eval :
    CSV.parseCSVData CSV.randZero CSV.sampleCSV = [CSV.sampleRec1, CSV.sampleRec2] := by
  have h : CSV.parseCSVData CSV.randZero CSV.sampleCSV =
      [{ date := "2024-01-01".toList,
         open_ := some (((150 : ℕ) : ℚ) + ((0 : ℕ) : ℚ) / (10 : ℚ) ^ (0 : ℕ)),
         high := some (((155 : ℕ) : ℚ) + ((0 : ℕ) : ℚ) / (10 : ℚ) ^ (0 : ℕ)),
         low := some (((149 : ℕ) : ℚ) + ((0 : ℕ) : ℚ) / (10 : ℚ) ^ (0 : ℕ)),
         close := some (((152 : ℕ) : ℚ) + ((5 : ℕ) : ℚ) / (10 : ℚ) ^ (1 : ℕ)),
         volume := some (((1000000 : ℕ) : ℚ) + ((0 : ℕ) : ℚ) / (10 : ℚ) ^ (0 : ℕ)) },
       { date := "2024-01-02".toList,
         open_ := some (((152 : ℕ) : ℚ) + ((5 : ℕ) : ℚ) / (10 : ℚ) ^ (1 : ℕ)),
         high := some (((156 : ℕ) : ℚ) + ((0 : ℕ) : ℚ) / (10 : ℚ) ^ (0 : ℕ)),
         low := some (((151 : ℕ) : ℚ) + ((0 : ℕ) : ℚ) / (10 : ℚ) ^ (0 : ℕ)),
         close := some (((154 : ℕ) : ℚ) + ((25 : ℕ) : ℚ) / (10 : ℚ) ^ (2 : ℕ)),
         volume := some (((1200000 : ℕ) : ℚ) + ((0 : ℕ) : ℚ) / (10 : ℚ) ^ (0 : ℕ)) }] := by
    rfl
  rw [h]
  simp only [CSV.sampleRec1, CSV.sampleRec2, CSV.RawStock.mk.injEq, List.cons.injEq]
  norm_num

/-- C6: every record emitted by the CSV parser has a successfully parsed
(finite) close — rows with an unparsable close are excluded — and the spec's
worked example parses to exactly the two expected records, in order, with
closes 152.5 and 154.25. -/
theorem parseCSVData_close_parsed (rand : ℕ → ℚ) (csvText : List Char)
    (r : CSV.RawStock) (hr : r ∈ CSV.parseCSVData rand csvText) :
    r.close.isSome = true ∧
    CSV.parseCSVData CSV.randZero CSV.sampleCSV = [CSV.sampleRec1, CSV.sampleRec2] := by
  refine ⟨?_, csv_sample_eval⟩
  unfold CSV.parseCSVData at hr
  exact (List.mem_filter.mp hr).2

/-- Witness for C6 at the first record of the worked example. -/
theorem parseCSVData_close_parsed_witness :
    CSV.sampleRec1.close.isSome = true ∧
    CSV.parseCSVData CSV.randZero CSV.sampleCSV = [CSV.sampleRec1, CSV.sampleRec2] :=
  parseCSVData_close_parsed CSV.randZero CSV.sampleCSV CSV.sampleRec1
    (by rw [csv_sample_eval]; exact List.mem_cons_self _ _)

/-- C7 counterexample: with the open column present but unparsable (`abc`),
the parser stores `0` for open — not the row's close (`100`), as the claim
would require. -/
theorem parseCSV_unparsable_open_counterexample :
    CSV.parseCSVData CSV.randZero CSV.unparsableOpenCSV =
      [{ date := "d".toList, open_ := some 0, high := some 100, low := some 100,
         close := some 100, volume := some 0 }] ∧
    (some (0 : ℚ) : Option ℚ) ≠ some 100 := by
  constructor
  · have h : CSV.parseCSVData CSV.randZero CSV.unparsableOpenCSV =
        [{ date := "d".toList, open_ := some 0,
           high := some (((100 : ℕ) : ℚ) + ((0 : ℕ) : ℚ) / (10 : ℚ) ^ (0 : ℕ)),
           low := some (((100 : ℕ) : ℚ) + ((0 : ℕ) : ℚ) / (10 : ℚ) ^ (0 : ℕ)),
           close := some (((100 : ℕ) : ℚ) + ((0 : ℕ) : ℚ) / (10 : ℚ) ^ (0 : ℕ)),
           volume := some 0 }] := by rfl
    rw [h]
    simp only [CSV.RawStock.mk.injEq, List.cons.injEq]
    norm_num
  · simp

/-- C7 amended: in a kept row, each optional column is defaulted
independently, but the fallback depends on why it is missing: an absent
open/high/low column falls back to the close cell and an absent volume column
to the random value, while a present-but-unparsable cell is stored as `0`
(via `parseFloat(...) || 0`). -/
theorem parseRow_default_fields (headers : List (List Char)) (randVal : ℚ)
    (line : List Char) (r : CSV.RawStock)
    (hr : CSV.parseRow headers randVal line = some r) :
    (headers.findIdx? CSV.isOpenHeader = none → r.open_ = r.close) ∧
    (∀ oi, headers.findIdx? CSV.isOpenHeader = some oi →
      CSV.parseFloat ((CSV.rowValues line).getD oi []) = none → r.open_ = some 0) ∧
    (headers.findIdx? CSV.isHighHeader = none → r.high = r.close) ∧
    (∀ hi, headers.findIdx? CSV.isHighHeader = some hi →
      CSV.parseFloat ((CSV.rowValues line).getD hi []) = none → r.high = some 0) ∧
    (headers.findIdx? CSV.isLowHeader = none → r.low = r.close) ∧
    (∀ li, headers.findIdx? CSV.isLowHeader = some li →
      CSV.parseFloat ((CSV.rowValues line).getD li []) = none → r.low = some 0) ∧
    (headers.findIdx? CSV.isVolumeHeader = none → r.volume = some randVal) ∧
    (∀ vi, headers.findIdx? CSV.isVolumeHeader = some vi →
      CSV.parseFloat ((CSV.rowValues line).getD vi []) = none → r.volume = some 0) := by
  simp only [CSV.parseRow] at hr
  rcases hdi : headers.findIdx? CSV.isDateHeader with _ | di <;> rw [hdi] at hr
  · simp at hr
  rcases hci : headers.findIdx? CSV.isCloseHeader with _ | ci <;> rw [hci] at hr
  · simp at hr
  simp only [Option.some.injEq] at hr
  subst hr
  refine ⟨?_, ?_, ?_, ?_, ?_, ?_, ?_, ?_⟩
  · intro h; simp [h]
  · intro oi hoi hpf
    rw [List.getD_eq_getElem?_getD] at hpf
    simp [hoi, hpf, CSV.jsOrZero]
  · intro h; simp [h]
  · intro hi hhi hpf
    rw [List.getD_eq_getElem?_getD] at hpf
    simp [hhi, hpf, CSV.jsOrZero]
  · intro h; simp [h]
  · intro li hli hpf
    rw [List.getD_eq_getElem?_getD] at hpf
    simp [hli, hpf, CSV.jsOrZero]
  · intro h; simp [h]
  · intro vi hvi hpf
    rw [List.getD_eq_getElem?_getD] at hpf
    simp [hvi, hpf, CSV.jsOrZero]

/-- Witness for the amended C7: on `smallHeaders`/`smallLine` the unparsable
open cell is stored as 0 and the absent volume column takes the oracle
value 7. -/
theorem parseRow_default_fields_witness :
    CSV.smallRec.open_ = some 0 ∧ CSV.smallRec.volume = some 7 :=
  ⟨(parseRow_default_fields CSV.smallHeaders 7 CSV.smallLine CSV.smallRec
      (by rfl)).2.1 1 (by rfl) (by rfl),
   (parseRow_default_fields CSV.smallHeaders 7 CSV.smallLine CSV.smallRec
      (by rfl)).2.2.2.2.2.2.1 (by rfl)⟩

theorem action_buy_pcp {sd : List App.StockData} {preds : List App.ModelPrediction}
    (h : App.action sd preds = App.Action.BUY) :
    0.3 < App.priceChangePercent sd preds := by
  simp only [App.action, App.actionConfidence] at h
  split_ifs at h with h1 h2 h3 h4 h5 h6
  all_goals
    first
    | (obtain ⟨hp, -, -⟩ := h1; linarith)
    | (obtain ⟨hp, -, -⟩ := h2; linarith)
    | (obtain ⟨hp, -, -⟩ := h3; linarith)
    | (obtain ⟨hp, -, -⟩ := h4; linarith)
    | (obtain ⟨hp, -⟩ := h5; linarith)
    | (obtain ⟨hp, -⟩ := h6; linarith)

theorem action_sell_pcp {sd : List App.StockData} {preds : List App.ModelPrediction}
    (h : App.action sd preds = App.Action.SELL) :
    App.priceChangePercent sd preds < -0.3 := by
  simp only [App.action, App.actionConfidence] at h
  split_ifs at h with h1 h2 h3 h4 h5 h6
  all_goals
    first
    | (obtain ⟨hp, -, -⟩ := h1; linarith)
    | (obtain ⟨hp, -, -⟩ := h2; linarith)
    | (obtain ⟨hp, -, -⟩ := h3; linarith)
    | (obtain ⟨hp, -, -⟩ := h4; linarith)
    | (obtain ⟨hp, -⟩ := h5; linarith)
    | (obtain ⟨hp, -⟩ := h6; linarith)

theorem targets_ordered_core (sd : List App.StockData) (preds : List App.ModelPrediction)
    (hcp : 0 < App.currentPrice sd) :
    (App.action sd preds = App.Action.BUY →
      App.stopLoss sd preds < App.currentPrice sd ∧
      App.currentPrice sd < App.targetPrice sd preds) ∧
    (App.action sd preds = App.Action.SELL →
      App.targetPrice sd preds < App.currentPrice sd ∧
      App.currentPrice sd < App.stopLoss sd preds) ∧
    (App.action sd preds = App.Action.HOLD →
      App.targetPrice sd preds = App.currentPrice sd ∧
      App.stopLoss sd preds = App.currentPrice sd) := by
  have htm : (1 : ℝ) < App.targetMultiplier sd preds :=
    lt_of_lt_of_le (by norm_num) (le_max_left _ _)
  refine ⟨?_, ?_, ?_⟩
  · intro h
    have hpcp := action_buy_pcp h
    have habs : 0.3 < |App.priceChangePercent sd preds| :=
      lt_of_lt_of_le hpcp (le_abs_self _)
    have hsm1 : App.stopMultiplier sd preds < 1 := by
      unfold App.stopMultiplier
      apply max_lt (by norm_num)
      nlinarith
    constructor
    · unfold App.stopLoss
      rw [if_pos h]
      exact mul_lt_of_lt_one_right hcp hsm1
    · unfold App.targetPrice
      rw [if_pos h]
      exact (lt_mul_iff_one_lt_right hcp).mpr htm
  · intro h
    have hpcp := action_sell_pcp h
    have habs : 0.3 < |App.priceChangePercent sd preds| := by
      rw [abs_of_neg (by linarith)]
      linarith
    have hsm1 : App.stopMultiplier sd preds < 1 := by
      unfold App.stopMultiplier
      apply max_lt (by norm_num)
      nlinarith
    have hnb : App.action sd preds ≠ App.Action.BUY := by
      rw [h]; exact fun hh => App.Action.noConfusion hh
    constructor
    · unfold App.targetPrice
      rw [if_neg hnb, if_pos h]
      exact mul_lt_of_lt_one_right hcp (by linarith)
    · unfold App.stopLoss
      rw [if_neg hnb, if_pos h]
      exact (lt_mul_iff_one_lt_right hcp).mpr (by linarith)
  · intro h
    have hnb : App.action sd preds ≠ App.Action.BUY := by
      rw [h]; exact fun hh => App.Action.noConfusion hh
    have hns : App.action sd preds ≠ App.Action.SELL := by
      rw [h]; exact fun hh => App.Action.noConfusion hh
    constructor
    · unfold App.targetPrice
      rw [if_neg hnb, if_neg hns]
    · unfold App.stopLoss
      rw [if_neg hnb, if_neg hns]

/-- C9 counterexample: on a one-point history with a negative close and
rising predictions, the rule recommends BUY yet the target price lies below
the current price (and the recommendation is produced, the inputs being
non-empty); so the claimed ordering does not hold for every input. -/
theorem recommendation_negative_price_counterexample :
    (App.recommendation App.sdNeg App.predsNeg).isSome = true ∧
    App.action App.sdNeg App.predsNeg = App.Action.BUY ∧
    App.targetPrice App.sdNeg App.predsNeg < App.currentPrice App.sdNeg := by
  have hcp : App.currentPrice App.sdNeg = -100 := by
    norm_num [App.currentPrice, App.sdNeg]
  have hlp : App.latestPrediction App.predsNeg =
      { date := "d", actual := 0, predicted := -103, confidence := 0.8 } := by
    norm_num [App.latestPrediction, App.predsNeg]
  have hpcp : App.priceChangePercent App.sdNeg App.predsNeg = 3 := by
    unfold App.priceChangePercent App.priceChange
    rw [hcp, hlp]
    norm_num
  have hrp : App.recentPredictions App.predsNeg = App.predsNeg := by
    simp [App.recentPredictions, App.jsSliceLast, App.predsNeg]
  have htu : App.trendUp App.predsNeg = 1 := by
    unfold App.trendUp
    rw [hrp]
    norm_num [App.predsNeg, List.countP_cons, decide_eq_true_eq]
  have hts : App.trendStrength App.predsNeg = 1 := by
    unfold App.trendStrength
    rw [hrp, htu]
    norm_num [App.predsNeg]
  have hact : App.action App.sdNeg App.predsNeg = App.Action.BUY := by
    simp only [App.action, App.actionConfidence, hpcp, hts, hlp]
    norm_num
  have htm : App.targetMultiplier App.sdNeg App.predsNeg = 1.045 := by
    unfold App.targetMultiplier
    rw [hpcp]
    rw [abs_of_pos (by norm_num : (0 : ℝ) < 3)]
    rw [max_eq_right (by norm_num : (1.03 : ℝ) ≤ 1 + 3 * 0.015)]
    norm_num
  refine ⟨by simp [App.recommendation, App.sdNeg, App.predsNeg], hact, ?_⟩
  unfold App.targetPrice
  rw [if_pos hact, hcp, htm]
  norm_num

/-- C9 amended: whenever the recommendation is produced and the current price
(the latest close) is positive, the price targets are ordered by the action:
BUY gives `stopLoss < currentPrice < targetPrice`, SELL gives
`targetPrice < currentPrice < stopLoss`, HOLD gives
`targetPrice = stopLoss = currentPrice`. -/
theorem recommendation_targets_ordered (sd : List App.StockData)
    (preds : List App.ModelPrediction) (r : App.Recommendation)
    (hr : App.recommendation sd preds = some r) (hcp : 0 < r.currentPrice) :
    (r.action = App.Action.BUY →
      r.stopLoss < r.currentPrice ∧ r.currentPrice < r.targetPrice) ∧
    (r.action = App.Action.SELL →
      r.targetPrice < r.currentPrice ∧ r.currentPrice < r.stopLoss) ∧
    (r.action = App.Action.HOLD →
      r.targetPrice = r.currentPrice ∧ r.stopLoss = r.currentPrice) := by
  simp only [App.recommendation] at hr
  split_ifs at hr with hg
  simp only [Option.some.injEq] at hr
  subst hr
  exact targets_ordered_core sd preds hcp

/-- Witness for the amended C9 on a positive-price input. -/
theorem recommendation_targets_ordered_witness :
    (App.recPos.action = App.Action.BUY →
      App.recPos.stopLoss < App.recPos.currentPrice ∧
      App.recPos.currentPrice < App.recPos.targetPrice) ∧
    (App.recPos.action = App.Action.SELL →
      App.recPos.targetPrice < App.recPos.currentPrice ∧
      App.recPos.currentPrice < App.recPos.stopLoss) ∧
    (App.recPos.action = App.Action.HOLD →
      App.recPos.targetPrice = App.recPos.currentPrice ∧
      App.recPos.stopLoss = App.recPos.currentPrice) :=
  recommendation_targets_ordered App.sdPos App.predsPos App.recPos (by rfl)
    (by norm_num [App.recPos, App.currentPrice, App.sdPos])
